import Mathlib

/-!
Verification development for the baybe decision core
(`src/baybe/recommender.py` and `src/baybe/scaler.py`).

Modelling conventions:
* A pandas `DataFrame` of candidates is a list of identifiers (`index`)
  together with a list of numeric feature rows.  Tensor entries are modelled
  as exact rationals (`ℚ`) on the recommender side and as reals (`ℝ`) on the
  scaler side, where a square root is needed for the standard deviation.
* `torch.argsort(values, descending=True)` is invoked without `stable=True`;
  PyTorch documents that the relative order of elements that compare equal is
  then not guaranteed.  We therefore embed it as a relation: any permutation
  of the positions whose induced score sequence is descending is a possible
  result.
* Python exceptions become explicit `Except` values.
-/

namespace Baybe

/-- A candidate table: `index` holds the unique identifiers of the rows,
`rows` the feature vectors.  Mirrors the pandas `DataFrame` consumed by
`Recommender.recommend`. -/
structure DataFrame where
  index : List ℕ
  rows : List (List ℚ)

/-- Modelled from the spec: `to_tensor` (from `baybe.utils`, not under `src/`)
converts the table's full numeric content into a dense numeric array,
i.e. the list of feature rows. -/
def to_tensor (df : DataFrame) : List (List ℚ) := df.rows

/-- `tensor.unsqueeze(1)`: each candidate row becomes a singleton group
(t-batch of size 1), giving shape (n, 1, D). -/
def unsqueeze1 (t : List (List ℚ)) : List (List (List ℚ)) :=
  t.map (fun r => [r])

/-- An acquisition function: consumes a batched tensor of shape
(batch, group, D) and yields one score per batch element. -/
def AcqF : Type := List (List (List ℚ)) → List ℚ

/-- Score of the candidate at position `i` (positions that exist are always
in range, the default is never exercised by the theorems below). -/
def scoreAt (scores : List ℚ) (i : ℕ) : ℚ := scores.getD i 0

/-- `torch.argsort(scores, descending=True)` without `stable=True`: `perm` is
a permutation of the positions `0, …, n-1` whose induced score sequence is
weakly descending.  Ties may appear in any relative order. -/
def IsArgsortDesc (scores : List ℚ) (perm : List ℕ) : Prop :=
  perm.Perm (List.range scores.length) ∧
    List.Sorted (· ≥ ·) (perm.map (scoreAt scores))

instance (scores : List ℚ) (perm : List ℕ) :
    Decidable (IsArgsortDesc scores perm) :=
  inferInstanceAs (Decidable (_ ∧ _))

/-- The scores computed in `MarginalRankingRecommender.recommend`:
`acquisition_function(to_tensor(candidates).unsqueeze(1))`. -/
def mrrScores (acqf : AcqF) (df : DataFrame) : List ℚ :=
  acqf (unsqueeze1 (to_tensor df))

/-- `candidates.index[positions]`: positional lookup of identifiers. -/
def lookupIndex (df : DataFrame) (positions : List ℕ) : List ℕ :=
  positions.map (fun i => df.index.getD i 0)

namespace MarginalRankingRecommender

/-- `MarginalRankingRecommender.recommend`: scores all candidates in one call
on singleton groups, argsorts descending (unstable, hence relational), slices
the first `batch_quantity` positions and maps them to identifiers. -/
def recommendRel (acqf : AcqF) (df : DataFrame) (batch_quantity : ℕ)
    (out : List ℕ) : Prop :=
  ∃ perm, IsArgsortDesc (mrrScores acqf df) perm ∧
    out = lookupIndex df (perm.take batch_quantity)

end MarginalRankingRecommender

/-- Errors of the decision core, named as in the spec's error taxonomy. -/
inductive CoreError where
  | SamplingError : CoreError
  | NotFittedError : CoreError
deriving DecidableEq

namespace RandomRecommender

/-- `RandomRecommender.recommend`: `candidates.sample(n=batch_quantity).index`.
pandas sampling without replacement fails when `n` exceeds the population
(spec name: `SamplingError`); otherwise it picks `batch_quantity` distinct
positions determined by the environment's randomness, modelled here by the
permutation `rng` supplied as an explicit parameter. -/
def recommend (df : DataFrame) (batch_quantity : ℕ) (rng : List ℕ) :
    Except CoreError (List ℕ) :=
  if batch_quantity ≤ df.index.length then
    Except.ok (lookupIndex df (rng.take batch_quantity))
  else
    Except.error CoreError.SamplingError

end RandomRecommender

/-! ### Scaler (`src/baybe/scaler.py`)

Floating-point tensors are modelled as exact reals.  The six scale functions,
which the source stores as closures over the fit-time values `bounds`, `mean`
and `std`, are embedded as functions parameterized by an explicit record
`FitParams` of those values; the `fitted` flag becomes the presence of that
record. -/

/-- Minimum of a nonempty list (the empty case is never exercised:
`torch.min` on an empty tensor is an error). -/
def listMin : List ℝ → ℝ
  | [] => 0
  | x :: xs => xs.foldl min x

/-- Maximum of a nonempty list. -/
def listMax : List ℝ → ℝ
  | [] => 0
  | x :: xs => xs.foldl max x

/-- Number of feature dimensions of a rectangular table. -/
def numCols (rows : List (List ℝ)) : ℕ := (rows.headD []).length

/-- Column `j` of a table. -/
def col (rows : List (List ℝ)) (j : ℕ) : List ℝ :=
  rows.map (fun r => r.getD j 0)

/-- `torch.min(searchspace, dim=0)[0]`: per-dimension minima. -/
def colMins (rows : List (List ℝ)) : List ℝ :=
  (List.range (numCols rows)).map (fun j => listMin (col rows j))

/-- `torch.max(searchspace, dim=0)[0]`: per-dimension maxima. -/
def colMaxs (rows : List (List ℝ)) : List ℝ :=
  (List.range (numCols rows)).map (fun j => listMax (col rows j))

/-- `torch.mean(y, dim=0)` for a vector of training targets. -/
noncomputable def tmean (y : List ℝ) : ℝ := y.sum / y.length

/-- `torch.std(y, dim=0)`: PyTorch's default standard deviation applies
Bessel's correction (denominator `n - 1`). -/
noncomputable def tstd (y : List ℝ) : ℝ :=
  Real.sqrt ((y.map (fun v => (v - tmean y) ^ 2)).sum / ((y.length : ℝ) - 1))

/-- The values captured by the six scale-function closures at fit time:
the searchspace bounds (`bounds[0]` and `bounds[1]`) and the training-target
mean and standard deviation. -/
structure FitParams where
  lower : List ℝ
  upper : List ℝ
  mean : ℝ
  std : ℝ

/-- `self.scale_x = lambda l: (l - bounds[0]) / (bounds[1] - bounds[0])`,
elementwise over a batch of rows with per-dimension bounds. -/
noncomputable def scale_x (p : FitParams) (x : List (List ℝ)) : List (List ℝ) :=
  x.map (fun r => (List.range r.length).map (fun j =>
    (r.getD j 0 - p.lower.getD j 0) / (p.upper.getD j 0 - p.lower.getD j 0)))

/-- `self.scale_y = lambda l: (l - mean) / std`, on one tensor entry. -/
noncomputable def scale_y (p : FitParams) (v : ℝ) : ℝ := (v - p.mean) / p.std

/-- `self.unscale_x = lambda l: l * (bounds[1] - bounds[0]) + bounds[0]`. -/
def unscale_x (p : FitParams) (x : List (List ℝ)) : List (List ℝ) :=
  x.map (fun r => (List.range r.length).map (fun j =>
    r.getD j 0 * (p.upper.getD j 0 - p.lower.getD j 0) + p.lower.getD j 0))

/-- `self.unscale_y = lambda l: l * std + mean`, on one tensor entry. -/
def unscale_y (p : FitParams) (v : ℝ) : ℝ := v * p.std + p.mean

/-- `self.unscale_m = lambda l: l * std + mean`, on one tensor entry. -/
def unscale_m (p : FitParams) (v : ℝ) : ℝ := v * p.std + p.mean

/-- `self.unscale_s = lambda l: l * std**2`, on one tensor entry. -/
def unscale_s (p : FitParams) (v : ℝ) : ℝ := v * p.std ^ 2

/-- A `DefaultScaler` instance: the stored experiment space plus, once
fitted, the captured scale parameters. -/
structure DefaultScaler where
  searchspace : List (List ℝ)
  params : Option FitParams

namespace DefaultScaler

/-- `Scaler.__init__`: stores the searchspace, `self.fitted = False`. -/
def init (searchspace : List (List ℝ)) : DefaultScaler :=
  ⟨searchspace, none⟩

/-- `self.fitted`. -/
def fitted (s : DefaultScaler) : Bool := s.params.isSome

/-- The parameters computed by `DefaultScaler.fit_transform`: bounds from the
*stored searchspace*, mean and standard deviation from the training targets. -/
noncomputable def fitParams (searchspace : List (List ℝ)) (y : List ℝ) :
    FitParams :=
  ⟨colMins searchspace, colMaxs searchspace, tmean y, tstd y⟩

/-- `DefaultScaler.fit_transform`: computes and stores the scale parameters,
marks the instance fitted, and returns `(scale_x(x), scale_y(y))`. -/
noncomputable def fit_transform (s : DefaultScaler) (x : List (List ℝ))
    (y : List ℝ) : DefaultScaler × List (List ℝ) × List ℝ :=
  let p := fitParams s.searchspace y
  (⟨s.searchspace, some p⟩, scale_x p x, y.map (scale_y p))

/-- `Scaler.transform`: guarded by the fitted flag
(`RuntimeError("Scaler object must be fitted first.")`, the spec's
`NotFittedError`), then applies the stored `scale_x`. -/
noncomputable def transform (s : DefaultScaler) (x : List (List ℝ)) :
    Except CoreError (List (List ℝ)) :=
  match s.params with
  | none => Except.error CoreError.NotFittedError
  | some p => Except.ok (scale_x p x)

/-- `Scaler.untransform`: guarded by the fitted flag, then returns
`(unscale_m(mean), unscale_s(variance))`. -/
noncomputable def untransform (s : DefaultScaler) (mean variance : ℝ) :
    Except CoreError (ℝ × ℝ) :=
  match s.params with
  | none => Except.error CoreError.NotFittedError
  | some p => Except.ok (unscale_m p mean, unscale_s p variance)

end DefaultScaler

/-! ### Strategy registries

`__init_subclass__` fires once for every subclass as it is defined (never for
the defining base class itself).  The `Recommender` hook registers the
subclass only when it is concrete; the `Scaler` hook registers every
subclass.  We replay the module elaborations as a fold over the sequence of
subclass definitions. -/

/-- One subclass definition: the class name, its declared strategy name
(`cls.type`), and whether the class is abstract. -/
structure ClassDef where
  name : String
  typename : String
  isabstract : Bool

/-- Modelled from the spec: `isabstract` (from `baybe.utils`, not under
`src/`) decides whether a class is "concrete, non-abstract"; here it is the
recorded flag of the class definition. -/
def isabstractCls (c : ClassDef) : Bool := c.isabstract

namespace Recommender

/-- `Recommender.__init_subclass__`: `if not isabstract(cls):
SUBCLASSES[cls.type] = cls`. -/
def registerStep (reg : List (String × String)) (c : ClassDef) :
    List (String × String) :=
  if isabstractCls c then reg else reg ++ [(c.typename, c.name)]

/-- The subclass definitions executed by `src/baybe/recommender.py`, in
order; the abstract base `Recommender` itself triggers no hook. -/
def moduleClasses : List ClassDef :=
  [⟨"MarginalRankingRecommender", "UNRESTRICTED_RANKING", false⟩,
   ⟨"RandomRecommender", "RANDOM", false⟩]

/-- `Recommender.SUBCLASSES` after the module's definitions. -/
def SUBCLASSES : List (String × String) :=
  moduleClasses.foldl registerStep []

end Recommender

namespace Scaler

/-- `Scaler.__init_subclass__`: `SUBCLASSES[cls.type] = cls`
(no abstractness guard). -/
def registerStep (reg : List (String × String)) (c : ClassDef) :
    List (String × String) :=
  reg ++ [(c.typename, c.name)]

/-- The subclass definitions executed by `src/baybe/scaler.py`. -/
def moduleClasses : List ClassDef :=
  [⟨"DefaultScaler", "DEFAULT", false⟩]

/-- `Scaler.SUBCLASSES` after the module's definitions. -/
def SUBCLASSES : List (String × String) :=
  moduleClasses.foldl registerStep []

end Scaler

/-! ### Concrete instances used by counterexamples and witnesses -/

/-- Two candidates with identifiers 10 and 20 and one feature each. -/
def tiedDF : DataFrame := ⟨[10, 20], [[1], [1]]⟩

/-- A constant acquisition function: every candidate scores 7 (a tie). -/
def constAcqF : AcqF := fun t => t.map (fun _ => 7)

/-- Two candidates with identifiers 10 and 20, features 1 and 2. -/
def twoDF : DataFrame := ⟨[10, 20], [[1], [2]]⟩

/-- An acquisition function returning each candidate's first feature. -/
def firstFeatAcqF : AcqF := fun t => t.map (fun g => (g.headD []).headD 0)

/-- The parameters a `DefaultScaler` fits on the one-feature experiment
space `{0, 10}` (range `[0, 10]`) with training targets `2, 4, 6`. -/
noncomputable def exParams : FitParams :=
  DefaultScaler.fitParams [[0], [10]] [2, 4, 6]

/-! ### Helper lemmas -/

/-- Positional `getD` lookup over all of `range l.length` recovers `l`. -/
theorem rangeMapGetD (l : List ℕ) :
    (List.range l.length).map (fun i => l.getD i 0) = l := by
  apply List.ext_get
  · simp
  · intro n h1 h2
    simp [List.getD_eq_getElem?_getD, List.getElem?_eq_getElem h2]

/-- `scoreAt` agrees with `get` inside the list. -/
theorem scoreAt_eq_get {scores : List ℚ} {i : ℕ} (h : i < scores.length) :
    scoreAt scores i = scores.get ⟨i, h⟩ := by
  simp [scoreAt, List.getD_eq_getElem?_getD, List.getElem?_eq_getElem h]

/-- Lists with equal images under a map that is injective across them are
equal. -/
theorem map_eq_self_of_inj {f : ℕ → ℚ} :
    ∀ l1 l2 : List ℕ, (∀ a ∈ l1, ∀ b ∈ l2, f a = f b → a = b) →
      l1.map f = l2.map f → l1 = l2 := by
  intro l1
  induction l1 with
  | nil =>
      intro l2 _ h
      cases l2 with
      | nil => rfl
      | cons b t2 => simp at h
  | cons a t ih =>
      intro l2 hinj h
      cases l2 with
      | nil => simp at h
      | cons b t2 =>
          simp only [List.map_cons, List.cons.injEq] at h
          have hab : a = b := hinj a (by simp) b (by simp) h.1
          subst hab
          have ht : t = t2 :=
            ih t2 (fun x hx y hy => hinj x (by simp [hx]) y (by simp [hy])) h.2
          rw [ht]

/-- A valid argsort result has the length of the score list. -/
theorem argsort_length {scores : List ℚ} {perm : List ℕ}
    (h : IsArgsortDesc scores perm) : perm.length = scores.length := by
  simpa using h.1.length_eq

/-- Every position in a valid argsort result is in range. -/
theorem argsort_mem_lt {scores : List ℚ} {perm : List ℕ}
    (h : IsArgsortDesc scores perm) : ∀ i ∈ perm, i < scores.length := by
  intro i hi
  exact List.mem_range.mp (h.1.mem_iff.mp hi)

/-- A valid argsort result has no duplicate positions. -/
theorem argsort_nodup {scores : List ℚ} {perm : List ℕ}
    (h : IsArgsortDesc scores perm) : perm.Nodup :=
  h.1.nodup_iff.mpr (List.nodup_range _)

/-- Every in-range position occurs in a valid argsort result. -/
theorem argsort_mem_of_lt {scores : List ℚ} {perm : List ℕ}
    (h : IsArgsortDesc scores perm) {i : ℕ} (hi : i < scores.length) :
    i ∈ perm :=
  h.1.mem_iff.mpr (List.mem_range.mpr hi)

/-- Positions kept by the `take` slice score at least as high as the
positions dropped. -/
theorem argsort_take_dominates {scores : List ℚ} {perm : List ℕ}
    (h : IsArgsortDesc scores perm) (q : ℕ) :
    ∀ i ∈ perm.take q, ∀ j ∈ perm.drop q,
      scoreAt scores j ≤ scoreAt scores i := by
  have hs := h.2
  rw [← List.take_append_drop q perm, List.map_append] at hs
  have hp := (List.pairwise_append.mp hs).2.2
  intro i hi j hj
  exact hp _ (List.mem_map_of_mem _ hi) _ (List.mem_map_of_mem _ hj)

/-- With pairwise-distinct scores, the argsort result is unique. -/
theorem argsort_unique {scores : List ℚ} (hnd : scores.Nodup)
    {p1 p2 : List ℕ} (h1 : IsArgsortDesc scores p1)
    (h2 : IsArgsortDesc scores p2) : p1 = p2 := by
  have hperm : p1.Perm p2 := h1.1.trans h2.1.symm
  have hmap : (p1.map (scoreAt scores)).Perm (p2.map (scoreAt scores)) :=
    hperm.map _
  haveI : IsAntisymm ℚ (· ≥ ·) := ⟨fun a b hab hba => le_antisymm hba hab⟩
  have heq : p1.map (scoreAt scores) = p2.map (scoreAt scores) :=
    List.eq_of_perm_of_sorted hmap h1.2 h2.2
  refine map_eq_self_of_inj p1 p2 ?_ heq
  intro a ha b hb hf
  have haR : a < scores.length := argsort_mem_lt h1 a ha
  have hbR : b < scores.length := argsort_mem_lt h2 b hb
  rw [scoreAt_eq_get haR, scoreAt_eq_get hbR] at hf
  have hinj := List.nodup_iff_injective_get.mp hnd hf
  exact congrArg Fin.val hinj

/-! ### Claims about the recommenders -/

/-- C1 counterexample: with two candidates whose scores are tied,
`torch.argsort` is invoked without `stable=True`, so both `[0, 1]` and
`[1, 0]` are admissible rankings; `recommend` with `batch_quantity = 1` may
select identifier 10 or identifier 20 — the selection is not pinned down by
the table and the scores alone, so stable tie-breaking fails. -/
theorem claim_C1_counterexample :
    MarginalRankingRecommender.recommendRel constAcqF tiedDF 1 [10] ∧
      MarginalRankingRecommender.recommendRel constAcqF tiedDF 1 [20] ∧
      ([10] : List ℕ) ≠ [20] :=
  ⟨⟨[0, 1], by decide, by decide⟩, ⟨[1, 0], by decide, by decide⟩, by decide⟩

/-- C1 (amended): whenever the candidates' scores are pairwise distinct,
`MarginalRankingRecommender.recommend` is deterministic — any two admissible
runs on the same table with the same scores yield the same selection.  Under
tied scores the relative order is not guaranteed, because the code calls
`torch.argsort` without `stable=True`. -/
theorem claim_C1 (acqf : AcqF) (df : DataFrame) (q : ℕ) (out1 out2 : List ℕ)
    (hnd : (mrrScores acqf df).Nodup)
    (h1 : MarginalRankingRecommender.recommendRel acqf df q out1)
    (h2 : MarginalRankingRecommender.recommendRel acqf df q out2) :
    out1 = out2 := by
  obtain ⟨p1, ha1, ho1⟩ := h1
  obtain ⟨p2, ha2, ho2⟩ := h2
  rw [ho1, ho2, argsort_unique hnd ha1 ha2]

theorem claim_C1_witness :
    (mrrScores firstFeatAcqF twoDF).Nodup ∧ ([20] : List ℕ) = [20] :=
  ⟨by decide,
    claim_C1 firstFeatAcqF twoDF 1 [20] [20] (by decide)
      ⟨[1, 0], by decide, by decide⟩ ⟨[1, 0], by decide, by decide⟩⟩

/-- C3: `RandomRecommender.recommend` with `batch_quantity` exceeding the
pool size fails with a `SamplingError` (pandas refuses to sample more
elements than the population without replacement) for every candidate table
and every randomness source — it never truncates. -/
theorem claim_C3 (df : DataFrame) (q : ℕ) (rng : List ℕ)
    (hq : df.index.length < q) :
    RandomRecommender.recommend df q rng =
      Except.error CoreError.SamplingError := by
  unfold RandomRecommender.recommend
  rw [if_neg (Nat.not_le.mpr hq)]

theorem claim_C3_witness :
    tiedDF.index.length < 3 ∧
      RandomRecommender.recommend tiedDF 3 [0, 1] =
        Except.error CoreError.SamplingError :=
  ⟨by decide, claim_C3 tiedDF 3 [0, 1] (by decide)⟩

/-- C4: for `1 ≤ batch_quantity ≤ |T|`, any admissible run of
`MarginalRankingRecommender.recommend` (scoring all candidates in one call
on singleton groups, argsorting descending, slicing, positional lookup)
returns the identifiers of `batch_quantity` distinct candidate positions
whose scores dominate the scores of every unselected position. -/
theorem claim_C4 (acqf : AcqF) (df : DataFrame) (q : ℕ) (out : List ℕ)
    (hlen : (mrrScores acqf df).length = df.index.length)
    (hq1 : 1 ≤ q) (hqn : q ≤ df.index.length)
    (hrec : MarginalRankingRecommender.recommendRel acqf df q out) :
    ∃ sel : List ℕ,
      out = lookupIndex df sel ∧ sel.Nodup ∧ sel.length = q ∧
        (∀ i ∈ sel, i < df.index.length) ∧
        (∀ i ∈ sel, ∀ j, j < df.index.length → j ∉ sel →
          scoreAt (mrrScores acqf df) j ≤ scoreAt (mrrScores acqf df) i) := by
  obtain ⟨perm, hargs, hout⟩ := hrec
  refine ⟨perm.take q, hout, ?_, ?_, ?_, ?_⟩
  · exact (List.take_sublist q perm).nodup (argsort_nodup hargs)
  · rw [List.length_take, argsort_length hargs, hlen]
    exact Nat.min_eq_left hqn
  · intro i hi
    have := argsort_mem_lt hargs i (List.mem_of_mem_take hi)
    rwa [hlen] at this
  · intro i hi j hj hnot
    have hjin : j ∈ perm := argsort_mem_of_lt hargs (by rwa [hlen])
    have hjdrop : j ∈ perm.drop q := by
      rcases (List.mem_append.mp
        (by rwa [List.take_append_drop q perm] : j ∈ perm.take q ++ perm.drop q))
        with h | h
      · exact absurd h hnot
      · exact h
    exact argsort_take_dominates hargs q i hi j hjdrop

theorem claim_C4_witness :
    ∃ sel : List ℕ,
      [20] = lookupIndex twoDF sel ∧ sel.Nodup ∧ sel.length = 1 ∧
        (∀ i ∈ sel, i < twoDF.index.length) ∧
        (∀ i ∈ sel, ∀ j, j < twoDF.index.length → j ∉ sel →
          scoreAt (mrrScores firstFeatAcqF twoDF) j ≤
            scoreAt (mrrScores firstFeatAcqF twoDF) i) :=
  claim_C4 firstFeatAcqF twoDF 1 [20] (by decide) (by decide) (by decide)
    ⟨[1, 0], by decide, by decide⟩

/-- C5: when `batch_quantity` exceeds the pool size, slicing the full
ranking is a no-op, so any admissible run of
`MarginalRankingRecommender.recommend` returns all identifiers of the table
(as a permutation — the whole ranked pool), with no error. -/
theorem claim_C5 (acqf : AcqF) (df : DataFrame) (q : ℕ) (out : List ℕ)
    (hlen : (mrrScores acqf df).length = df.index.length)
    (hq : df.index.length < q)
    (hrec : MarginalRankingRecommender.recommendRel acqf df q out) :
    out.Perm df.index := by
  obtain ⟨perm, hargs, hout⟩ := hrec
  have hall : perm.take q = perm := by
    apply List.take_of_length_le
    rw [argsort_length hargs, hlen]
    exact Nat.le_of_lt hq
  rw [hout, hall]
  have hmap := hargs.1.map (fun i => df.index.getD i 0)
  rw [hlen] at hmap
  rw [lookupIndex]
  exact hmap.trans (by rw [rangeMapGetD])

theorem claim_C5_witness :
    ([20, 10] : List ℕ).Perm twoDF.index :=
  claim_C5 firstFeatAcqF twoDF 5 [20, 10] (by decide) (by decide)
    ⟨[1, 0], by decide, by decide⟩

/-- C10: `batch_quantity = 0` falls outside the documented precondition but
raises no error: the slice `ilocs[:0]` is empty, so any admissible run of
`MarginalRankingRecommender.recommend` returns the empty selection. -/
theorem claim_C10 (acqf : AcqF) (df : DataFrame) (out : List ℕ)
    (hrec : MarginalRankingRecommender.recommendRel acqf df 0 out) :
    out = [] := by
  obtain ⟨perm, _, hout⟩ := hrec
  simpa [lookupIndex] using hout

theorem claim_C10_witness : ([] : List ℕ) = [] :=
  claim_C10 constAcqF tiedDF [] ⟨[0, 1], by decide, by decide⟩

/-! ### Claims about the scaler -/

/-- The training-target mean of `[2, 4, 6]` is 4. -/
theorem tmean_ex : tmean [2, 4, 6] = 4 := by
  simp [tmean]
  norm_num

/-- `torch.std` applies Bessel's correction, so the standard deviation of
`[2, 4, 6]` is `√((4 + 0 + 4) / 2) = 2` (not the population value
`√(8/3) ≈ 1.63`). -/
theorem tstd_ex : tstd [2, 4, 6] = 2 := by
  unfold tstd
  rw [show (List.map (fun v => (v - tmean [2, 4, 6]) ^ 2) [2, 4, 6]).sum /
      ((([2, 4, 6] : List ℝ).length : ℝ) - 1) = 2 ^ 2 from by
    simp [tmean]
    norm_num]
  exact Real.sqrt_sq (by norm_num)

/-- The concrete fit of the example: bounds `[0], [10]`, mean 4, std 2. -/
theorem exParams_eq : exParams = ⟨[0], [10], 4, 2⟩ := by
  unfold exParams DefaultScaler.fitParams
  rw [tmean_ex, tstd_ex]
  simp [colMins, colMaxs, numCols, col, listMin, listMax, List.range_succ,
    List.getD, min_def, max_def]

/-- C2 counterexample: on the claimed example the fitted standard deviation
is exactly 2 (`torch.std` uses the `n - 1` denominator), not `≈ 1.63`, and
`unscale_s(1) = 4`, which is far from the claimed `≈ 2.67`. -/
theorem claim_C2_counterexample :
    exParams.std = 2 ∧ unscale_s exParams 1 = 4 ∧
      1 < |(4 : ℝ) - 267 / 100| ∧ 1 / 4 < |(2 : ℝ) - 163 / 100| := by
  refine ⟨?_, ?_, by rw [abs_of_pos (by norm_num)]; norm_num,
    by rw [abs_of_pos (by norm_num)]; norm_num⟩
  · rw [exParams_eq]
  · rw [exParams_eq]
    simp [unscale_s]
    norm_num

/-- C2 (amended): the fit of the example space `[0, 10]` with targets
`[2, 4, 6]` stores mean 4 and standard deviation 2 (Bessel-corrected), and
the scale functions give `scale_x(5) = 0.5`, `scale_y(4) = 0` and
`unscale_s(1) = 4`. -/
theorem claim_C2 :
    ((DefaultScaler.init [[0], [10]]).fit_transform [[0], [10]] [2, 4, 6]).1.params
        = some exParams ∧
      exParams.mean = 4 ∧ exParams.std = 2 ∧
      scale_x exParams [[5]] = [[1 / 2]] ∧ scale_y exParams 4 = 0 ∧
      unscale_s exParams 1 = 4 := by
  refine ⟨rfl, ?_, ?_, ?_, ?_, ?_⟩
  · rw [exParams_eq]
  · rw [exParams_eq]
  · rw [exParams_eq]
    simp [scale_x, List.range_succ, List.getD]
    norm_num
  · rw [exParams_eq]
    simp [scale_y]
  · rw [exParams_eq]
    simp [unscale_s]
    norm_num

/-- C6: `transform` and `untransform` fail with `NotFittedError` exactly on
unfitted instances; a freshly constructed scaler is unfitted, a fit marks
the instance fitted, and afterwards `transform` applies the stored forward
input scale without error. -/
theorem claim_C6 :
    (∀ (s : DefaultScaler) (x : List (List ℝ)) (m v : ℝ),
      (s.transform x = Except.error CoreError.NotFittedError ↔
        s.fitted = false) ∧
      (s.untransform m v = Except.error CoreError.NotFittedError ↔
        s.fitted = false)) ∧
    (∀ (ss x0 x : List (List ℝ)) (y0 : List ℝ),
      (DefaultScaler.init ss).fitted = false ∧
      ((DefaultScaler.init ss).fit_transform x0 y0).1.fitted = true ∧
      ((DefaultScaler.init ss).fit_transform x0 y0).1.transform x =
        Except.ok (scale_x (DefaultScaler.fitParams ss y0) x)) := by
  constructor
  · intro s x m v
    cases hp : s.params with
    | none =>
        simp [DefaultScaler.transform, DefaultScaler.untransform,
          DefaultScaler.fitted, hp]
    | some p =>
        simp [DefaultScaler.transform, DefaultScaler.untransform,
          DefaultScaler.fitted, hp]
  · exact fun ss x0 x y0 => ⟨rfl, rfl, rfl⟩

/-- C7: after any fit, `untransform(mean, variance)` returns
`(mean * std + m, variance * std²)` — the inverse-mean scale has the same
affine form as the inverse-target scale (`unscale_m = unscale_y`), while the
inverse-variance scale multiplies by the squared standard deviation and adds
no mean. -/
theorem claim_C7 (s : DefaultScaler) (x : List (List ℝ)) (y : List ℝ)
    (mean variance : ℝ) :
    ((s.fit_transform x y).1).untransform mean variance =
        Except.ok (mean * tstd y + tmean y, variance * tstd y ^ 2) ∧
      (∀ (p : FitParams) (v : ℝ), unscale_m p v = unscale_y p v) :=
  ⟨rfl, fun p v => rfl⟩

/-- C8: the input-scale functions produced by a fit depend only on the
stored experiment space — fitting the same space on different training data
yields extensionally equal `scale_x` and `unscale_x` (per-dimension bounds
are taken over the whole stored space). -/
theorem claim_C8 (ss x1 x2 xin : List (List ℝ)) (y1 y2 : List ℝ) :
    scale_x (DefaultScaler.fitParams ss y1) xin =
        scale_x (DefaultScaler.fitParams ss y2) xin ∧
      unscale_x (DefaultScaler.fitParams ss y1) xin =
        unscale_x (DefaultScaler.fitParams ss y2) xin ∧
      ((DefaultScaler.init ss).fit_transform x1 y1).1.transform xin =
        ((DefaultScaler.init ss).fit_transform x2 y2).1.transform xin :=
  ⟨rfl, rfl, rfl⟩

/-! ### Claims about the registries -/

/-- C9: registration is automatic and exact — elaborating a concrete,
non-abstract strategy definition appends it to the registry under its
declared name, and replaying the modules' definition sequences leaves the
`Recommender` registry with exactly the two concrete recommenders and the
`Scaler` registry with exactly `DefaultScaler`; the abstract bases trigger
no hook and are absent. -/
theorem claim_C9 :
    (∀ (reg : List (String × String)) (c : ClassDef), c.isabstract = false →
      Recommender.registerStep reg c = reg ++ [(c.typename, c.name)]) ∧
    (∀ (reg : List (String × String)) (c : ClassDef),
      Scaler.registerStep reg c = reg ++ [(c.typename, c.name)]) ∧
    Recommender.SUBCLASSES =
      [("UNRESTRICTED_RANKING", "MarginalRankingRecommender"),
       ("RANDOM", "RandomRecommender")] ∧
    Scaler.SUBCLASSES = [("DEFAULT", "DefaultScaler")] := by
  refine ⟨?_, fun reg c => rfl, rfl, rfl⟩
  intro reg c hc
  simp [Recommender.registerStep, isabstractCls, hc]

theorem claim_C9_witness :
    Recommender.registerStep []
        ⟨"MarginalRankingRecommender", "UNRESTRICTED_RANKING", false⟩ =
      [] ++ [("UNRESTRICTED_RANKING", "MarginalRankingRecommender")] :=
  claim_C9.1 [] ⟨"MarginalRankingRecommender", "UNRESTRICTED_RANKING", false⟩
    rfl

end Baybe
